/-
Verification of the obstacle-location operator
(`operators/obstacle_location_op.py`) against its natural-language
specification.

The operator is embedded shallowly: coordinates are exact rationals (ℚ),
numpy arrays of shape (n, 3) become `List V3`, the mutable `Operator`
object becomes an explicit `State` record, and each branch of
`Operator.on_input` becomes a Lean function from input and state to a new
state plus an emitted payload (or an error, standing for a Python
exception propagating out of the handler).
-/
import Mathlib

namespace ObstacleLocationOp

/-- A 2-D point (pixel coordinates); entries are exact rationals. -/
structure V2 where
  x : ℚ
  y : ℚ
deriving DecidableEq

/-- A 3-D point; entries are exact rationals. -/
structure V3 where
  x : ℚ
  y : ℚ
  z : ℚ
deriving DecidableEq

/-- A 3×3 matrix given by its rows, as in the numpy literals of the source. -/
structure Mat3 where
  r0 : V3
  r1 : V3
  r2 : V3
deriving DecidableEq

/-- Row-vector times matrix, the convention of `np.dot(point_cloud, MATRIX)`
in the source (line 145). -/
def vecMulMat (p : V3) (m : Mat3) : V3 :=
  ⟨p.x * m.r0.x + p.y * m.r1.x + p.z * m.r2.x,
   p.x * m.r0.y + p.y * m.r1.y + p.z * m.r2.y,
   p.x * m.r0.z + p.y * m.r1.z + p.z * m.r2.z⟩

/-- Matrix times column vector, used by the pinhole projection. -/
def matMulVec (m : Mat3) (p : V3) : V3 :=
  ⟨m.r0.x * p.x + m.r0.y * p.y + m.r0.z * p.z,
   m.r1.x * p.x + m.r1.y * p.y + m.r1.z * p.z,
   m.r2.x * p.x + m.r2.y * p.y + m.r2.z * p.z⟩

/-- A row of a 4×4 homogeneous matrix. -/
structure V4 where
  a : ℚ
  b : ℚ
  c : ℚ
  d : ℚ
deriving DecidableEq

/-- A 4×4 homogeneous matrix given by its rows. -/
structure Mat4 where
  r0 : V4
  r1 : V4
  r2 : V4
  r3 : V4
deriving DecidableEq

/-- Dot product of a matrix row with the homogeneous extension (x, y, z, 1)
of a 3-D point. -/
def dot4 (r : V4) (p : V3) : ℚ :=
  r.a * p.x + r.b * p.y + r.c * p.z + r.d

/-- Source expression `np.dot(points_with_ones, extrinsic.T)[:, :3]` applied to one point
(source lines 244-246 and 201-203): append a homogeneous 1, multiply by the
transposed extrinsic matrix (i.e. take the extrinsic matrix times the
column vector), keep the first three coordinates. -/
def applyExtrinsic (E : Mat4) (p : V3) : V3 :=
  ⟨dot4 E.r0 p, dot4 E.r1 p, dot4 E.r2 p⟩

/-- The identity 4×4 matrix (used as a concrete extrinsic matrix in witnesses). -/
def idMat4 : Mat4 :=
  ⟨⟨1, 0, 0, 0⟩, ⟨0, 1, 0, 0⟩, ⟨0, 0, 1, 0⟩, ⟨0, 0, 0, 1⟩⟩

/-- Source line 84: `VELODYNE_MATRIX = np.array([[0, 0, 1], [1, 0, 0], [0, -1, 0]])`,
the LiDAR-to-camera axis remap. -/
def VELODYNE_MATRIX : Mat3 :=
  ⟨⟨0, 0, 1⟩, ⟨1, 0, 0⟩, ⟨0, -1, 0⟩⟩

/-- Source line 87: `INV_VELODYNE_MATRIX = np.linalg.inv(VELODYNE_MATRIX)`.
`VELODYNE_MATRIX` is a signed permutation matrix, so its inverse is its
transpose, exactly representable; `velodyne_mul_inv` and `inv_mul_velodyne`
below check that this literal is indeed the two-sided inverse that
`np.linalg.inv` returns. -/
def INV_VELODYNE_MATRIX : Mat3 :=
  ⟨⟨0, 1, 0⟩, ⟨0, 0, -1⟩, ⟨1, 0, 0⟩⟩

/-- Source line 85: `UNREAL_MATRIX = np.array([[0, 0, 1], [-1, 0, 0], [0, -1, 0]])`
(defined but unused by the handlers). -/
def UNREAL_MATRIX : Mat3 :=
  ⟨⟨0, 0, 1⟩, ⟨-1, 0, 0⟩, ⟨0, -1, 0⟩⟩

/-- Product of two 3×3 matrices (row convention as above). -/
def mat3Mul (m n : Mat3) : Mat3 :=
  ⟨vecMulMat m.r0 n, vecMulMat m.r1 n, vecMulMat m.r2 n⟩

/-- The identity 3×3 matrix. -/
def idMat3 : Mat3 :=
  ⟨⟨1, 0, 0⟩, ⟨0, 1, 0⟩, ⟨0, 0, 1⟩⟩

theorem velodyne_mul_inv : mat3Mul VELODYNE_MATRIX INV_VELODYNE_MATRIX = idMat3 := by
  norm_num [mat3Mul, vecMulMat, VELODYNE_MATRIX, INV_VELODYNE_MATRIX, idMat3]

theorem inv_mul_velodyne : mat3Mul INV_VELODYNE_MATRIX VELODYNE_MATRIX = idMat3 := by
  norm_num [mat3Mul, vecMulMat, VELODYNE_MATRIX, INV_VELODYNE_MATRIX, idMat3]

/-- Modelled from the spec: `get_intrinsic_matrix` lives in `dora_utils`,
which is not among the provided source files. Spec §4.2: a "standard
pinhole projection matrix from image dimensions and field of view",
computed once from `DEPTH_IMAGE_WIDTH = 1920`, `DEPTH_IMAGE_HEIGHT = 1080`,
`DEPTH_FOV = 90` (source lines 75-81). With a 90° field of view the focal
length is width/2 = 960 exactly, and the principal point is the image
center (960, 540). -/
def INTRINSIC_MATRIX : Mat3 :=
  ⟨⟨960, 0, 960⟩, ⟨0, 960, 540⟩, ⟨0, 0, 1⟩⟩

/-- Modelled from the spec: `local_points_to_camera_view` lives in
`dora_utils`, which is not among the provided source files. Spec §4.2:
"perspective-divides camera-frame 3D points into image-plane 2D
coordinates while retaining the original depth value per point". The
source transposes the result (lines 161-163), so each camera-frame point
yields one row (pixel u, pixel v, depth). -/
def local_points_to_camera_view (pts : List V3) (K : Mat3) : List V3 :=
  pts.map fun p =>
    let t := matMulVec K p
    ⟨t.x / t.z, t.y / t.z, t.z⟩

/-- A 2-D bounding box row, source line 215:
`bbox = np.array([[min_x, max_x, min_y, max_y, confidence, label], ...])`,
entries read as 32-bit signed integers (line 217). -/
structure BBox where
  min_x : ℤ
  max_x : ℤ
  min_y : ℤ
  max_y : ℤ
  confidence : ℤ
  label : ℤ
deriving DecidableEq

/-- Python exceptions that can escape the handlers, as an enumeration.
`fitError` stands for the errors raised when fitting the k-nearest-neighbor
regressor on an empty or inconsistent ground partition (a `TypeError` when
the held fields are still the initial Python lists, otherwise sklearn
`ValueError`s for zero samples / inconsistent sample counts);
`predictTooFewSamples` for the sklearn `ValueError` raised by `predict`
when the regressor holds fewer than `n_neighbors = 4` training samples;
`noExtrinsicAttribute` for the `AttributeError` raised when
`self.extrinsic_matrix` is read before any position event assigned it. -/
inductive PyErr where
  | fitError
  | predictTooFewSamples
  | noExtrinsicAttribute
deriving DecidableEq

/-- The mutable fields of the `Operator` object (source `__init__`,
lines 110-120). `extrinsic_matrix` is not assigned in `__init__` and only
exists after the first position event, hence the `Option`. -/
structure State where
  point_cloud : List V3
  camera_point_cloud : List V3
  ground_point_cloud : List V3
  camera_ground_point_cloud : List V3
  last_point_cloud : List V3
  last_camera_point_cloud : List V3
  obstacles : List (List ℚ)
  obstacles_bbox : List BBox
  position : List ℚ
  lanes : List (List V2)
  extrinsic_matrix : Option Mat4
deriving DecidableEq

/-- The state built by `Operator.__init__`: every held field is the empty
Python list, and `extrinsic_matrix` does not exist yet. -/
def State.init : State :=
  { point_cloud := []
    camera_point_cloud := []
    ground_point_cloud := []
    camera_ground_point_cloud := []
    last_point_cloud := []
    last_camera_point_cloud := []
    obstacles := []
    obstacles_bbox := []
    position := []
    lanes := []
    extrinsic_matrix := none }

/-- Source line 145: `np.dot(point_cloud, VELODYNE_MATRIX)` — the raw
Velodyne-frame cloud rotated into the camera frame. -/
def camera_frame_cloud (raw : List V3) : List V3 :=
  raw.map fun p => vecMulMat p VELODYNE_MATRIX

/-- Source line 151: `point_cloud[np.where(point_cloud[:, 2] > 0.1)]` —
keep the forward points, camera-frame depth strictly greater than 0.1. -/
def depth_filtered (raw : List V3) : List V3 :=
  (camera_frame_cloud raw).filter fun p => decide ((1 : ℚ) / 10 < p.z)

/-- Source lines 154-155: `above_ground_point_index = np.where(point_cloud[:, 1] < 1.0)`
followed by `point_cloud = point_cloud[above_ground_point_index]` — the
depth-filtered points whose camera-frame vertical coordinate is below 1.0. -/
def above_ground (raw : List V3) : List V3 :=
  (depth_filtered raw).filter fun p => decide (p.y < 1)

/-- The `lidar_pc` branch of `Operator.on_input` (source lines 136-169).

Lines 156-158 read
`self.ground_point_cloud = point_cloud[above_ground_point_index == False]`.
`above_ground_point_index` is the tuple returned by `np.where`, so
`above_ground_point_index == False` is the Python boolean `False` (a tuple
never equals `False`), and indexing an ndarray with the scalar boolean
`False` selects no rows: the assigned ground cloud is empty no matter what
the input cloud contains. Consequently `self.camera_ground_point_cloud`
(line 164), the projection of that empty array, is empty as well. Both
fields are therefore embedded as the empty list. -/
def on_lidar_pc (raw : List V3) (s : State) : State :=
  { s with
    point_cloud := above_ground raw
    ground_point_cloud := []
    camera_point_cloud := local_points_to_camera_view (above_ground raw) INTRINSIC_MATRIX
    camera_ground_point_cloud := [] }

/-- Modelled from the spec: `get_projection_matrix` and
`get_extrinsic_matrix` live in `dora_utils`, which is not among the
provided source files. Spec §4.2: `build_extrinsic(pose)` "constructs a
4×4 homogeneous transform from a Pose location and orientation". Its
rotation block involves trigonometric functions of pitch/yaw/roll, so the
construction is kept abstract as a parameter `buildExtrinsic`; every
theorem below holds for any such construction. The `position` branch of
`Operator.on_input` (source lines 171-176) stores the pose and rebuilds
the extrinsic matrix from it. -/
def on_position (buildExtrinsic : List ℚ → Mat4) (pos : List ℚ) (s : State) : State :=
  { s with
    position := pos
    extrinsic_matrix := some (buildExtrinsic pos) }

/-- Source lines 224-229: the numpy boolean test, applied to one projected
point, that places its pixel coordinates strictly inside the box:
`(camera[:, 0] > min_x) & (camera[:, 0] < max_x) & (camera[:, 1] > min_y) & (camera[:, 1] < max_y)`.
The integer box bounds are promoted to rationals, as numpy promotes the
int32 bounds to the float dtype of the projected cloud. -/
def inside_bbox (bb : BBox) (c : V3) : Bool :=
  decide ((bb.min_x : ℚ) < c.x) && decide (c.x < (bb.max_x : ℚ)) &&
    decide ((bb.min_y : ℚ) < c.y) && decide (c.y < (bb.max_y : ℚ))

/-- Source lines 223-230: `z_points = self.point_cloud[np.where(...)]` — the
held (above-ground) 3-D points whose projection, the row of
`self.camera_point_cloud` with the same index, falls strictly inside the
box. The two held lists have equal length and matching order whenever they
were produced by a `lidar_pc` event. -/
def z_points (s : State) (bb : BBox) : List V3 :=
  ((s.point_cloud.zip s.camera_point_cloud).filter fun pc =>
    inside_bbox bb pc.2).map Prod.fst

/-- Source lines 231-234:
`z_points[z_points[:, 2].argsort()[int(len(z_points) / 4)]]` — sort the
selected points by camera-frame depth ascending and pick the one at rank
`⌊count / 4⌋` (Python `int(len / 4)` truncates the nonnegative float
`len / 4`, which is Nat division by 4). `none` exactly when the selection
is empty (the `if len(z_points) > 0` guard of line 231). -/
def first_quartile (zp : List V3) : Option V3 :=
  (zp.insertionSort fun p q => p.z ≤ q.z).get? (zp.length / 4)

/-- Source lines 90-102, `get_predictions`: zip the full bounding-box list
with the (possibly shorter) list of located obstacles and build one row
`np.append(location, obstacle[-2:])` = (x, y, z, confidence, label) per
pair. `zip` stops at the shorter list. -/
def get_predictions (obstacles : List BBox) (locs : List V3) : List (List ℚ) :=
  (obstacles.zip locs).map fun ol =>
    [ol.2.x, ol.2.y, ol.2.z, (ol.1.confidence : ℚ), (ol.1.label : ℚ)]

/-- The `obstacles_bbox` branch of `Operator.on_input` (source lines
211-263). Returns the new state together with the emitted `obstacles`
payload: `none` when the unready guard of line 212 fires (no output,
`DoraStatus.CONTINUE`), `some rows` when a buffer is emitted (`some []`
is the empty buffer of lines 258-263). The input is the buffer already
reshaped to rows of six int32 values (line 217); the branch stores it in
`self.obstacles_bbox` before computing. `self.extrinsic_matrix` (line 245)
is only read when at least one box resolved a location; reading it before
any position event raises `AttributeError`. -/
def on_obstacles_bbox (bbs : List BBox) (s : State) :
    State × Except PyErr (Option (List (List ℚ))) :=
  if s.position.length = 0 ∨ s.point_cloud.length = 0 then
    (s, Except.ok none)
  else
    let s1 : State := { s with obstacles_bbox := bbs }
    let owl := bbs.filterMap fun bb => first_quartile (z_points s bb)
    if 0 < owl.length then
      match s.extrinsic_matrix with
      | none => (s1, Except.error PyErr.noExtrinsicAttribute)
      | some E => (s1, Except.ok (some (get_predictions bbs (owl.map (applyExtrinsic E)))))
    else
      (s1, Except.ok (some []))

/-- Squared Euclidean distance between two pixel coordinates, the metric of
the sklearn default neighbor search (the square root does not change the
ordering). -/
def sqDist (p q : V2) : ℚ :=
  (p.x - q.x) * (p.x - q.x) + (p.y - q.y) * (p.y - q.y)

/-- Mean of a list of 3-D points, componentwise. -/
def centroid (ts : List V3) : V3 :=
  ⟨(ts.map V3.x).sum / ts.length, (ts.map V3.y).sum / ts.length,
    (ts.map V3.z).sum / ts.length⟩

/-- One prediction of the k-nearest-neighbor regressor of source lines
185-192 (`KNeighborsRegressor(n_neighbors=4)` fitted on pixel/3-D-point
training pairs): the mean of the 3-D targets of the 4 training points
whose pixel coordinates are nearest to the query, ties broken by training
index (sklearn returns the earliest candidates; `insertionSort` is
stable). Meaningful only when the training list holds at least 4 samples;
on fewer, the sklearn `predict` raises instead (handled in `process_lanes`). -/
def knn4_predict (train : List (V2 × V3)) (q : V2) : V3 :=
  centroid (((train.insertionSort fun s t => sqDist s.1 q ≤ sqDist t.1 q).take 4).map
    Prod.snd)

/-- First two columns of a projected row, `[:, :2]` of source line 187:
the pixel coordinates without the retained depth. -/
def pixel_part (c : V3) : V2 :=
  ⟨c.x, c.y⟩

/-- The per-lane loop of source lines 190-204. For each lane, in order:
predict a camera-frame 3-D point per pixel with the fitted regressor
(line 192; sklearn raises `ValueError` here when the regressor holds fewer
than `n_neighbors = 4` training samples), append a homogeneous 1 and
multiply by the transposed extrinsic matrix keeping three coordinates
(lines 195-203; reading the never-assigned `self.extrinsic_matrix` raises
`AttributeError`). An exception on any lane aborts the whole event before
anything is sent. -/
def process_lanes (train : List (V2 × V3)) (n : ℕ) (em : Option Mat4) :
    List (List V2) → Except PyErr (List (List V3))
  | [] => Except.ok []
  | lane :: rest =>
    if n < 4 then
      Except.error PyErr.predictTooFewSamples
    else
      match em with
      | none => Except.error PyErr.noExtrinsicAttribute
      | some E =>
        match process_lanes train n em rest with
        | Except.error e => Except.error e
        | Except.ok rs =>
          Except.ok ((lane.map fun q => applyExtrinsic E (knn4_predict train q)) :: rs)

/-- The `lanes` branch of `Operator.on_input` (source lines 178-209). The
input is the buffer already reshaped to (N, 60, 2) int32 pixel pairs
(lines 179-183), promoted to rationals. The branch holds no unready
guard: it immediately fits the k-nearest-neighbor regressor on the held
ground partition (lines 185-188), which raises when that partition is
empty or its two lists disagree in length (`fitError` in `PyErr`), then
runs the per-lane loop. It assigns no `self` field, so the state is
returned unchanged even when an exception escapes. On success the emitted
`global_lanes` payload is the list of per-lane world-point sequences
(flattened to a float buffer on line 205-207). -/
def on_lanes (lanes : List (List V2)) (s : State) :
    State × Except PyErr (List (List V3)) :=
  if s.camera_ground_point_cloud.length = 0 ∨ s.ground_point_cloud.length = 0 ∨
      s.camera_ground_point_cloud.length ≠ s.ground_point_cloud.length then
    (s, Except.error PyErr.fitError)
  else
    (s, process_lanes ((s.camera_ground_point_cloud.map pixel_part).zip s.ground_point_cloud)
      s.ground_point_cloud.length s.extrinsic_matrix lanes)

/-- An input event, tagged as in the string dispatch of
`Operator.on_input` (`dora_input["id"]`). -/
inductive Event where
  | lidar_pc (raw : List V3)
  | position (pos : List ℚ)
  | lanes (ls : List (List V2))
  | obstacles_bbox (bbs : List BBox)

/-- An emitted payload, tagged with its output stream. -/
inductive Out where
  | obstacles (rows : List (List ℚ))
  | global_lanes (ls : List (List V3))
deriving DecidableEq

/-- The full `Operator.on_input` (source lines 131-264): dispatch on the input
identifier. `Except.ok` corresponds to the handler returning
`DoraStatus.CONTINUE`; `Except.error` to a Python exception escaping.
`buildExtrinsic` abstracts the `dora_utils` pose-to-matrix construction
(see `on_position`). -/
def on_input (buildExtrinsic : List ℚ → Mat4) (e : Event) (s : State) :
    State × Except PyErr (Option Out) :=
  match e with
  | Event.lidar_pc raw => (on_lidar_pc raw s, Except.ok none)
  | Event.position pos => (on_position buildExtrinsic pos s, Except.ok none)
  | Event.lanes ls =>
    match on_lanes ls s with
    | (s2, Except.ok out) => (s2, Except.ok (some (Out.global_lanes out)))
    | (s2, Except.error e2) => (s2, Except.error e2)
  | Event.obstacles_bbox bbs =>
    match on_obstacles_bbox bbs s with
    | (s2, Except.ok none) => (s2, Except.ok none)
    | (s2, Except.ok (some rows)) => (s2, Except.ok (some (Out.obstacles rows)))
    | (s2, Except.error e2) => (s2, Except.error e2)

/-- Claim C8: for every 3-D point P, multiplying P (row-vector convention)
by the LiDAR-to-camera rotation matrix and then by its inverse matrix
returns P exactly (exact rational arithmetic). -/
theorem velodyne_roundtrip (p : V3) :
    vecMulMat (vecMulMat p VELODYNE_MATRIX) INV_VELODYNE_MATRIX = p := by
  cases p with
  | mk x y z => norm_num [vecMulMat, VELODYNE_MATRIX, INV_VELODYNE_MATRIX]

/-- Claim C9: after every point-cloud event, whatever the input cloud and
the previous state, the held ground partition is empty:
`point_cloud[above_ground_point_index == False]` compares the `np.where`
tuple with `False`, giving the scalar boolean `False`, a mask that selects
no rows. -/
theorem ground_partition_always_empty (raw : List V3) (s : State) :
    (on_lidar_pc raw s).ground_point_cloud = [] := rfl

/-- Claim C6: a bounding-box event arriving while the held position or the
held point cloud is still the initial empty value is silently ignored: no
output, no exception, state unchanged, normal return
(`DoraStatus.CONTINUE`). -/
theorem bbox_unready_ignored (bbs : List BBox) (s : State)
    (h : s.position = [] ∨ s.point_cloud = []) :
    on_obstacles_bbox bbs s = (s, Except.ok none) := by
  have h0 : s.position.length = 0 ∨ s.point_cloud.length = 0 := by
    rcases h with h | h <;> simp [h]
  unfold on_obstacles_bbox
  rw [if_pos h0]

/-- Witness for C6: a concrete bounding-box event at the freshly
initialized operator produces no output and no error. -/
theorem bbox_unready_ignored_check :
    on_obstacles_bbox [⟨0, 1, 0, 1, 0, 0⟩] State.init = (State.init, Except.ok none) :=
  bbox_unready_ignored [⟨0, 1, 0, 1, 0, 0⟩] State.init (Or.inl rfl)

/-- Claim C2 (evaluation at the failing input): a lane event at the
freshly initialized operator — empty ground partition, no extrinsic
matrix — is not silently skipped: the regressor fit raises and the
exception escapes the handler, so no later statement of the branch runs
and nothing is emitted. -/
theorem lanes_unready_raises :
    on_lanes [List.replicate 60 ⟨0, 0⟩] State.init =
      (State.init, Except.error PyErr.fitError) := rfl

/-- Claim C3 (evaluation at the failing input): for the single Velodyne
point (1, 0, −2) — camera frame (0, 2, 1), kept by the depth filter,
vertical coordinate 2 ≥ 1.0 — the held above-ground and ground sets after
the point-cloud event are both empty, so their union misses the
depth-filtered cloud: the ground set does not receive the points with
vertical coordinate ≥ 1.0. -/
theorem ground_partition_not_exhaustive :
    depth_filtered [⟨1, 0, -2⟩] = [⟨0, 2, 1⟩] ∧
    (on_lidar_pc [⟨1, 0, -2⟩] State.init).point_cloud = [] ∧
    (on_lidar_pc [⟨1, 0, -2⟩] State.init).ground_point_cloud = [] := by
  refine ⟨?_, ?_, rfl⟩
  · norm_num [depth_filtered, camera_frame_cloud, vecMulMat, VELODYNE_MATRIX]
  · norm_num [on_lidar_pc, above_ground, depth_filtered, camera_frame_cloud,
      vecMulMat, VELODYNE_MATRIX]

/-- Claim C10: neither the bounding-box branch nor the lane branch
modifies the held fusion state consumed by later events — point cloud,
camera projection index, ground partition and its projection, position,
extrinsic matrix are all unchanged, the lane branch leaves the state
untouched entirely, and the bounding-box branch overwrites at most the
stored copy of the incoming boxes. -/
theorem handlers_preserve_fusion_state (s : State) (bbs : List BBox)
    (ls : List (List V2)) :
    ((on_obstacles_bbox bbs s).1 = s ∨
      (on_obstacles_bbox bbs s).1 = { s with obstacles_bbox := bbs }) ∧
    (on_obstacles_bbox bbs s).1.point_cloud = s.point_cloud ∧
    (on_obstacles_bbox bbs s).1.camera_point_cloud = s.camera_point_cloud ∧
    (on_obstacles_bbox bbs s).1.ground_point_cloud = s.ground_point_cloud ∧
    (on_obstacles_bbox bbs s).1.camera_ground_point_cloud = s.camera_ground_point_cloud ∧
    (on_obstacles_bbox bbs s).1.position = s.position ∧
    (on_obstacles_bbox bbs s).1.extrinsic_matrix = s.extrinsic_matrix ∧
    (on_lanes ls s).1 = s := by
  have hb : (on_obstacles_bbox bbs s).1 = s ∨
      (on_obstacles_bbox bbs s).1 = { s with obstacles_bbox := bbs } := by
    unfold on_obstacles_bbox
    split
    · exact Or.inl rfl
    · dsimp only
      split
      · split <;> exact Or.inr rfl
      · exact Or.inr rfl
  have hl : (on_lanes ls s).1 = s := by
    unfold on_lanes
    split <;> rfl
  refine ⟨hb, ?_, ?_, ?_, ?_, ?_, ?_, hl⟩ <;> rcases hb with hb | hb <;> rw [hb]

/-- Claim C4: for a processed bounding-box event in which no box contains
any projected point strictly inside its rectangle, the handler emits the
empty `obstacles` buffer — no error, no zero-valued rows, the incoming
boxes stored, nothing else changed. -/
theorem empty_selection_contract (s : State) (bbs : List BBox)
    (hpos : s.position ≠ []) (hpc : s.point_cloud ≠ [])
    (hsel : ∀ bb ∈ bbs, z_points s bb = []) :
    on_obstacles_bbox bbs s = ({ s with obstacles_bbox := bbs }, Except.ok (some [])) := by
  have hguard : ¬(s.position.length = 0 ∨ s.point_cloud.length = 0) := by
    simp [List.length_eq_zero, hpos, hpc]
  have howl : (bbs.filterMap fun bb => first_quartile (z_points s bb)) = [] := by
    rw [List.filterMap_eq_nil_iff]
    intro bb hbb
    rw [hsel bb hbb]
    rfl
  unfold on_obstacles_bbox
  rw [if_neg hguard]
  simp [howl]

/-- A held state for the C4 witness: position and point cloud set, the
single held point projecting to pixel (300, 300). -/
def c4_state : State :=
  { State.init with
    position := [0, 0, 0, 0, 0, 0]
    point_cloud := [⟨0, 0, 5⟩]
    camera_point_cloud := [⟨300, 300, 5⟩] }

/-- Witness for C4: a concrete box containing no projected point yields
the empty emitted buffer and no error. -/
theorem empty_selection_contract_check :
    on_obstacles_bbox [⟨0, 10, 0, 10, 7, 1⟩] c4_state =
      ({ c4_state with obstacles_bbox := [⟨0, 10, 0, 10, 7, 1⟩] }, Except.ok (some [])) :=
  empty_selection_contract c4_state [⟨0, 10, 0, 10, 7, 1⟩]
    (by decide) (by decide) (by decide)

instance : IsTotal V3 fun p q => p.z ≤ q.z :=
  ⟨fun p q => le_total p.z q.z⟩

instance : IsTrans V3 fun p q => p.z ≤ q.z :=
  ⟨fun _ _ _ h1 h2 => le_trans h1 h2⟩

/-- Claim C5: for a non-empty selection, the chosen point is the one at
rank ⌊count / 4⌋ (0-indexed) of the selection ordered by camera-frame
depth ascending, and its depth value is independent of how ties between
equal depths are broken: for ANY ascending arrangement `l` of the
depth multiset of the selection (`np.argsort` fixes one such arrangement), the
chosen depth is `l[⌊count / 4⌋]`. -/
theorem quartile_rank_selection (zp : List V3) (l : List ℚ)
    (hne : zp ≠ []) (hperm : List.Perm l (zp.map V3.z))
    (hsort : List.Sorted (fun a b : ℚ => a ≤ b) l) :
    ∃ p, first_quartile zp = some p ∧ l[zp.length / 4]? = some p.z := by
  have hpermS : List.Perm (zp.insertionSort fun p q => p.z ≤ q.z) zp :=
    List.perm_insertionSort _ _
  have hlen : (zp.insertionSort fun p q => p.z ≤ q.z).length = zp.length :=
    hpermS.length_eq
  have hk : zp.length / 4 < (zp.insertionSort fun p q => p.z ≤ q.z).length := by
    rw [hlen]
    exact Nat.div_lt_self (List.length_pos.mpr hne) (by norm_num)
  have hsortS : List.Sorted (fun p q : V3 => p.z ≤ q.z)
      (zp.insertionSort fun p q => p.z ≤ q.z) :=
    List.sorted_insertionSort _ _
  have hmapsort : List.Sorted (fun a b : ℚ => a ≤ b)
      ((zp.insertionSort fun p q => p.z ≤ q.z).map V3.z) := by
    rw [List.Sorted, List.pairwise_map]
    exact hsortS
  have hl : l = (zp.insertionSort fun p q => p.z ≤ q.z).map V3.z :=
    List.eq_of_perm_of_sorted (hperm.trans (hpermS.map V3.z).symm) hsort hmapsort
  refine ⟨(zp.insertionSort fun p q => p.z ≤ q.z).get ⟨zp.length / 4, hk⟩, ?_, ?_⟩
  · exact List.get?_eq_get hk
  · rw [hl, List.getElem?_map, List.getElem?_eq_getElem hk]
    rfl

/-- The C5 witness selection: 8 points with distinct depths 1..8 in
scrambled order. -/
def c5_selection : List V3 :=
  [⟨0, 0, 5⟩, ⟨0, 0, 2⟩, ⟨0, 0, 7⟩, ⟨0, 0, 1⟩, ⟨0, 0, 8⟩, ⟨0, 0, 3⟩, ⟨0, 0, 6⟩, ⟨0, 0, 4⟩]

/-- Witness for C5: on 8 selected points with depths 1..8 the chosen
index is ⌊8/4⌋ = 2 and the chosen depth is the 3rd-smallest, 3. -/
theorem quartile_rank_selection_check :
    ∃ p, first_quartile c5_selection = some p ∧
      ([1, 2, 3, 4, 5, 6, 7, 8] : List ℚ)[c5_selection.length / 4]? = some p.z :=
  quartile_rank_selection c5_selection [1, 2, 3, 4, 5, 6, 7, 8]
    (by decide) (by decide) (by decide)

/-- With at least 4 training samples and an extrinsic matrix present, the
per-lane loop succeeds and maps every pixel of every lane to one world
point. -/
theorem process_lanes_ok (train : List (V2 × V3)) (n : ℕ) (E : Mat4) (h4 : ¬n < 4) :
    ∀ ls : List (List V2), process_lanes train n (some E) ls =
      Except.ok (ls.map fun lane => lane.map fun q => applyExtrinsic E (knn4_predict train q))
  | [] => rfl
  | lane :: rest => by
    have ih := process_lanes_ok train n E h4 rest
    simp only [process_lanes, if_neg h4, ih, List.map_cons]

/-- Claim C7 (as amended): a lane event whose buffer reshapes to
(N, 60, 2), processed with a held ground partition of at least 4 points
(the `n_neighbors` of the regressor), a pixel index of equal length, and a set
extrinsic matrix, emits a `global_lanes` payload of shape (N, 60, 3): one
3-D world point per input lane pixel, lanes in input order, each output
lane of length 60, with no error and the state unchanged. -/
theorem lane_shape_preserved (s : State) (ls : List (List V2)) (E : Mat4)
    (h4 : 4 ≤ s.ground_point_cloud.length)
    (hlen : s.camera_ground_point_cloud.length = s.ground_point_cloud.length)
    (hE : s.extrinsic_matrix = some E)
    (h60 : ∀ lane ∈ ls, lane.length = 60) :
    ∃ out : List (List V3), on_lanes ls s = (s, Except.ok out) ∧
      out.length = ls.length ∧
      ∀ i (hi : i < out.length), (out.get ⟨i, hi⟩).length = 60 := by
  have hcond : ¬(s.camera_ground_point_cloud.length = 0 ∨ s.ground_point_cloud.length = 0 ∨
      s.camera_ground_point_cloud.length ≠ s.ground_point_cloud.length) := by
    push_neg
    refine ⟨by omega, by omega, hlen⟩
  refine ⟨ls.map fun lane => lane.map fun q => applyExtrinsic E
    (knn4_predict ((s.camera_ground_point_cloud.map pixel_part).zip s.ground_point_cloud) q),
    ?_, by simp, ?_⟩
  · unfold on_lanes
    rw [if_neg hcond, hE, process_lanes_ok _ _ _ (by omega)]
  · intro i hi
    simp only [List.get_eq_getElem, List.getElem_map]
    rw [List.length_map]
    apply h60
    apply List.getElem_mem

/-- A held state with a one-point ground partition, used to refute C7 as
stated. -/
def c7_state : State :=
  { State.init with
    ground_point_cloud := [⟨0, 0, 1⟩]
    camera_ground_point_cloud := [⟨3, 4, 1⟩]
    extrinsic_matrix := some idMat4 }

/-- Counterexample to C7 as stated: with a NON-EMPTY ground partition of
one point (fewer than the 4 neighbors of the regressor) and a set extrinsic
matrix, a (1, 60, 2) lane event emits nothing — the regressor `predict` call
raises — so no (1, 60, 3) buffer is produced. -/
theorem lane_shape_not_preserved_on_small_ground :
    on_lanes [List.replicate 60 ⟨0, 0⟩] c7_state =
      (c7_state, Except.error PyErr.predictTooFewSamples) := rfl

/-- A held state with a four-point ground partition for the C7 witness. -/
def c7_ok_state : State :=
  { State.init with
    ground_point_cloud := [⟨0, 0, 1⟩, ⟨1, 0, 1⟩, ⟨0, 1, 1⟩, ⟨1, 1, 1⟩]
    camera_ground_point_cloud := [⟨0, 0, 1⟩, ⟨9, 0, 1⟩, ⟨0, 9, 1⟩, ⟨9, 9, 1⟩]
    extrinsic_matrix := some idMat4 }

/-- Witness for the amended C7: a concrete (1, 60, 2) lane event against a
four-point ground partition emits one lane of 60 world points. -/
theorem lane_shape_preserved_check :
    ∃ out : List (List V3),
      on_lanes [List.replicate 60 ⟨1, 1⟩] c7_ok_state = (c7_ok_state, Except.ok out) ∧
      out.length = [List.replicate 60 (⟨1, 1⟩ : V2)].length ∧
      ∀ i (hi : i < out.length), (out.get ⟨i, hi⟩).length = 60 :=
  lane_shape_preserved c7_ok_state [List.replicate 60 ⟨1, 1⟩] idMat4
    (by decide) rfl rfl (by simp)

/-- A held state for the C1 evaluation: one above-ground point (5, 5, 10)
projecting to pixel (100, 100), identity extrinsic matrix, position set. -/
def c1_state : State :=
  { State.init with
    position := [0, 0, 0, 0, 0, 0]
    point_cloud := [⟨5, 5, 10⟩]
    camera_point_cloud := [⟨100, 100, 10⟩]
    extrinsic_matrix := some idMat4 }

/-- Two boxes: box 0 = (0, 10)×(0, 10) with confidence 7, label 1 contains
no projected point; box 1 = (90, 110)×(90, 110) with confidence 9, label 2
contains pixel (100, 100). -/
def c1_boxes : List BBox :=
  [⟨0, 10, 0, 10, 7, 1⟩, ⟨90, 110, 90, 110, 9, 2⟩]

/-- Claim C1 (evaluation at the failing input): box 0 resolves no
location and box 1 resolves (5, 5, 10), yet the single emitted
row is (5, 5, 10, 7, 1) — the location computed from box 1 paired with
the confidence 7 and label 1 of box 0, because `get_predictions` zips the full
box list with the shorter location list. The claim requires the row to
carry the confidence 9 and label 2 of box 1. -/
theorem bbox_row_pairing_mismatch :
    z_points c1_state ⟨0, 10, 0, 10, 7, 1⟩ = [] ∧
    z_points c1_state ⟨90, 110, 90, 110, 9, 2⟩ = [⟨5, 5, 10⟩] ∧
    on_obstacles_bbox c1_boxes c1_state =
      ({ c1_state with obstacles_bbox := c1_boxes },
        Except.ok (some [[5, 5, 10, 7, 1]])) := by
  refine ⟨by decide, by decide, ?_⟩
  have howl : (c1_boxes.filterMap fun bb => first_quartile (z_points c1_state bb)) =
      [⟨5, 5, 10⟩] := by decide
  unfold on_obstacles_bbox
  rw [if_neg (by decide)]
  simp only [howl]
  norm_num [get_predictions, applyExtrinsic, dot4, idMat4, c1_state, c1_boxes, State.init]

end ObstacleLocationOp
